import Mathlib

/-!
Shallow embedding of the core of `lazy-socket` (src/raw/unix.rs and
src/raw/windows.rs): the address codec (`get_raw_addr` / `sockaddr_to_addr`),
the error translation of the I/O calls (`send`, `send_to`, `recv`,
`recv_from`), the readiness multiplexer (`sockets_to_fd_set`, `ms_to_timeval`,
`select` argument construction) and the `Drop` implementation.

Machine integers are modelled as `Nat`/`Int` with explicit reductions where
the code casts or overflows.  Host endianness is a `Bool` parameter `le`
(`true` = little endian): `u16::to_be()` is a byte swap exactly on
little-endian hosts.  A fallible Rust computation is modelled by
`CallResult`: `ok`, `err` (a returned `io::Error`) or `panic` (a failed
`assert!` / panicking path).
-/

namespace LazySocket

/-- Model of `std::io::Error`: either an OS error wrapping the raw code
(`io::Error::last_os_error()`), or the `InvalidInput`-kind error built by
`io::Error::new(io::ErrorKind::InvalidInput, "Invalid addr type.")`. -/
inductive IoError where
  | os (code : Int)
  | invalidInput
deriving DecidableEq, Repr

/-- Outcome of a Rust computation: a value, a returned `io::Error`,
or a panic (failed `assert!`). -/
inductive CallResult (α : Type) where
  | ok (a : α)
  | err (e : IoError)
  | panic
deriving DecidableEq, Repr

/-- `true` exactly on the `err` outcome. -/
def CallResult.isError {α : Type} : CallResult α → Bool
  | .err _ => true
  | _ => false

/-! ### Byte-order primitives

`u16::to_be()` in Rust returns the value with its two bytes swapped on a
little-endian host and unchanged on a big-endian host. -/

/-- Swap the two bytes of a 16-bit value. -/
def swap16 (x : Nat) : Nat := (x % 256) * 256 + x / 256

/-- Model of Rust `u16::to_be()` on a host of endianness `le`. -/
def u16_to_be (le : Bool) (x : Nat) : Nat := if le then swap16 x else x

/-- The two memory bytes (lowest address first) of a host `u16` value. -/
def u16_mem_bytes (le : Bool) (v : Nat) : Nat × Nat :=
  if le then (v % 256, v / 256) else (v / 256, v % 256)

/-- Reading two memory bytes (lowest address first) as a host `u16` value. -/
def read_u16 (le : Bool) (b0 b1 : Nat) : Nat :=
  if le then b0 + 256 * b1 else 256 * b0 + b1

/-! ### Data model

The generic address is `std::net::SocketAddr`; the native buffer is
`sockaddr_storage` (`SOCKADDR_STORAGE_LH` on Windows).  The model of the
storage is a record with one field per datum the code reads or writes
through the `sockaddr_in` / `sockaddr_in6` reinterpretations: the family
tag, the two port bytes (same offset in both structures), the 4 IPv4
address bytes, the 16 IPv6 address bytes, and the IPv6 flow-info and
scope-id words (carried as values: the code applies no byte-order
conversion to them on either side). -/

/-- The four octets of an IPv4 address in stored (network) order. -/
structure V4Bytes where
  b0 : Nat
  b1 : Nat
  b2 : Nat
  b3 : Nat
deriving DecidableEq, Repr

/-- Model of `std::net::SocketAddr`. -/
inductive SocketAddr where
  | v4 (ip : V4Bytes) (port : Nat)
  | v6 (ip : List Nat) (port : Nat) (flowinfo : Nat) (scope_id : Nat)
deriving DecidableEq, Repr

/-- The 16-bit port of a generic address. -/
def SocketAddr.port : SocketAddr → Nat
  | .v4 _ p => p
  | .v6 _ p _ _ => p

/-- Model of `sockaddr_storage` / `SOCKADDR_STORAGE_LH`. -/
structure sockaddr_storage where
  ss_family : Nat
  /-- first memory byte of `sin_port` / `sin6_port` -/
  port_b0 : Nat
  /-- second memory byte of `sin_port` / `sin6_port` -/
  port_b1 : Nat
  /-- the 4 bytes of `sin_addr` in stored order -/
  v4_addr : V4Bytes
  /-- the 16 bytes of `sin6_addr.s6_addr` in stored order -/
  v6_addr : List Nat
  /-- `sin6_flowinfo`, carried as a value (no conversion anywhere) -/
  flowinfo : Nat
  /-- `sin6_scope_id`, carried as a value (no conversion anywhere) -/
  scope_id : Nat
deriving DecidableEq, Repr

/-- `AF_INET`, value 2 on both platform families. -/
def AF_INET : Nat := 2

/-- `AF_INET6` on Linux. -/
def Unix.AF_INET6 : Nat := 10

/-- `AF_INET6` on Windows. -/
def Windows.AF_INET6 : Nat := 23

/-- `mem::size_of::<sockaddr_in>()` (= `SOCKADDR_IN` on Windows). -/
def sizeof_sockaddr_in : Nat := 16

/-- `mem::size_of::<sockaddr_in6>()` (both platform families). -/
def sizeof_sockaddr_in6 : Nat := 28

/-! ### Encoding: `get_raw_addr`

`get_raw_addr` returns a pointer to the `std::net::SocketAddrV4` /
`SocketAddrV6` value itself, reinterpreted as `sockaddr`, together with the
exact size of the corresponding native structure.  The `std` types are
declared as wrappers of `sockaddr_in` / `sockaddr_in6` with `sin_family`
set to the address family, `sin_port` stored as `port.to_be()` (network
byte order in memory), the address octets stored in order, and
`sin6_flowinfo` / `sin6_scope_id` stored as given.  The model writes those
fields into the storage record; the family tag for IPv6 is the platform's
`AF_INET6` value `af6`. -/

/-- Model of `get_raw_addr`: the native buffer the OS will read, and the
exact structure length returned. -/
def get_raw_addr (le : Bool) (af6 : Nat) : SocketAddr → sockaddr_storage × Nat
  | .v4 ip port =>
      let pb := u16_mem_bytes le (u16_to_be le port)
      ({ ss_family := AF_INET, port_b0 := pb.1, port_b1 := pb.2,
         v4_addr := ip, v6_addr := List.replicate 16 0,
         flowinfo := 0, scope_id := 0 }, sizeof_sockaddr_in)
  | .v6 ip port fi sc =>
      let pb := u16_mem_bytes le (u16_to_be le port)
      ({ ss_family := af6, port_b0 := pb.1, port_b1 := pb.2,
         v4_addr := ⟨0, 0, 0, 0⟩, v6_addr := ip,
         flowinfo := fi, scope_id := sc }, sizeof_sockaddr_in6)

/-! ### Decoding: `sockaddr_to_addr`

Source (both platforms): match on `storage.ss_family as c_int`; for
`AF_INET`, `assert!(len >= size_of::<sockaddr_in>())`, then read the 4
address bytes in stored order and the port as `sin_port.to_be()`; for
`AF_INET6` the same with 28 bytes, plus `sin6_flowinfo` and
`sin6_scope_id` carried through; any other family yields
`io::Error::new(io::ErrorKind::InvalidInput, "Invalid addr type.")`.
A failed `assert!` is a panic, modelled by `CallResult.panic`. -/

/-- Model of `sockaddr_to_addr` (parameterised by the platform's
`AF_INET6` value `af6`). -/
def sockaddr_to_addr (le : Bool) (af6 : Nat) (storage : sockaddr_storage)
    (len : Nat) : CallResult SocketAddr :=
  if storage.ss_family = AF_INET then
    if sizeof_sockaddr_in ≤ len then
      .ok (.v4 storage.v4_addr
             (u16_to_be le (read_u16 le storage.port_b0 storage.port_b1)))
    else .panic
  else if storage.ss_family = af6 then
    if sizeof_sockaddr_in6 ≤ len then
      .ok (.v6 storage.v6_addr
             (u16_to_be le (read_u16 le storage.port_b0 storage.port_b1))
             storage.flowinfo storage.scope_id)
    else .panic
  else .err .invalidInput

/-! Port round-trip helper lemmas. -/

theorem swap16_swap16 (p : Nat) (hp : p < 65536) : swap16 (swap16 p) = p := by
  simp only [swap16]; omega

theorem port_mem_bytes_network_order (le : Bool) (p : Nat) (hp : p < 65536) :
    u16_mem_bytes le (u16_to_be le p) = (p / 256, p % 256) := by
  cases le
  all_goals simp only [u16_mem_bytes, u16_to_be, swap16, Bool.false_eq_true,
    ite_true, ite_false, Prod.mk.injEq]
  all_goals exact ⟨by omega, by omega⟩

theorem port_roundtrip (le : Bool) (p : Nat) (hp : p < 65536) :
    u16_to_be le (read_u16 le (u16_mem_bytes le (u16_to_be le p)).1
      (u16_mem_bytes le (u16_to_be le p)).2) = p := by
  cases le <;>
    simp only [u16_mem_bytes, u16_to_be, read_u16, swap16,
      Bool.false_eq_true, ite_true, ite_false] <;>
    omega

/-- C1 (claim as stated): decoding the buffer produced by encoding any
well-formed generic address yields the address back, on both host
endiannesses and for any platform `AF_INET6` tag distinct from `AF_INET`. -/
theorem C1_codec_roundtrip (le : Bool) (af6 : Nat) (h6 : af6 ≠ AF_INET)
    (a : SocketAddr) (hp : a.port < 65536) :
    sockaddr_to_addr le af6 (get_raw_addr le af6 a).1 (get_raw_addr le af6 a).2
      = .ok a := by
  cases a with
  | v4 ip port =>
      simp only [get_raw_addr, sockaddr_to_addr, if_true, le_refl, ite_true]
      rw [port_roundtrip le port hp]
  | v6 ip port fi sc =>
      simp only [get_raw_addr, sockaddr_to_addr, if_neg h6, if_pos rfl]
      norm_num [sizeof_sockaddr_in6]
      rw [port_roundtrip le port (by simpa [SocketAddr.port] using hp)]

/-- C1 witness: a concrete non-trivial IPv6 address round-trips on a
little-endian host with the Linux `AF_INET6` tag. -/
theorem C1_codec_roundtrip_witness :
    sockaddr_to_addr true Unix.AF_INET6
      (get_raw_addr true Unix.AF_INET6
        (.v6 [0,1,2,3,4,5,6,7,8,9,10,11,12,13,14,255] 1666 77 9)).1
      (get_raw_addr true Unix.AF_INET6
        (.v6 [0,1,2,3,4,5,6,7,8,9,10,11,12,13,14,255] 1666 77 9)).2
      = .ok (.v6 [0,1,2,3,4,5,6,7,8,9,10,11,12,13,14,255] 1666 77 9) :=
  C1_codec_roundtrip true Unix.AF_INET6 (by decide)
    (.v6 [0,1,2,3,4,5,6,7,8,9,10,11,12,13,14,255] 1666 77 9) (by decide)

/-- C2 (claim as stated): the encoded native buffer stores the port in
network byte order (high byte at the lower address) on both host
endiannesses, decoding converts back to host order so the port
round-trips, and the IP address bytes (4 for IPv4, 16 for IPv6) are
carried through in stored order with no byte swap. -/
theorem C2_port_network_order (le : Bool) (p : Nat) (hp : p < 65536)
    (ip : V4Bytes) (ip6 : List Nat) (fi sc : Nat) :
    ((get_raw_addr le Unix.AF_INET6 (.v4 ip p)).1.port_b0 = p / 256 ∧
     (get_raw_addr le Unix.AF_INET6 (.v4 ip p)).1.port_b1 = p % 256) ∧
    u16_to_be le (read_u16 le (get_raw_addr le Unix.AF_INET6 (.v4 ip p)).1.port_b0
      (get_raw_addr le Unix.AF_INET6 (.v4 ip p)).1.port_b1) = p ∧
    (get_raw_addr le Unix.AF_INET6 (.v4 ip p)).1.v4_addr = ip ∧
    (get_raw_addr le Unix.AF_INET6 (.v6 ip6 p fi sc)).1.v6_addr = ip6 := by
  refine ⟨⟨?_, ?_⟩, ?_, rfl, rfl⟩
  · simpa [get_raw_addr] using
      congrArg Prod.fst (port_mem_bytes_network_order le p hp)
  · simpa [get_raw_addr] using
      congrArg Prod.snd (port_mem_bytes_network_order le p hp)
  · simpa [get_raw_addr] using port_roundtrip le p hp

/-- C2 witness: port 1666 encodes as the bytes `0x06` `0x82` on a
little-endian host, and decodes back to 1666. -/
theorem C2_port_network_order_witness :
    ((get_raw_addr true Unix.AF_INET6 (.v4 ⟨127,0,0,1⟩ 1666)).1.port_b0 = 6 ∧
     (get_raw_addr true Unix.AF_INET6 (.v4 ⟨127,0,0,1⟩ 1666)).1.port_b1 = 130) ∧
    u16_to_be true (read_u16 true
      (get_raw_addr true Unix.AF_INET6 (.v4 ⟨127,0,0,1⟩ 1666)).1.port_b0
      (get_raw_addr true Unix.AF_INET6 (.v4 ⟨127,0,0,1⟩ 1666)).1.port_b1) = 1666 ∧
    (get_raw_addr true Unix.AF_INET6 (.v4 ⟨127,0,0,1⟩ 1666)).1.v4_addr = ⟨127,0,0,1⟩ ∧
    (get_raw_addr true Unix.AF_INET6 (.v6 [1] 1666 0 0)).1.v6_addr = [1] :=
  C2_port_network_order true 1666 (by decide) ⟨127,0,0,1⟩ [1] 0 0

/-! ### I/O calls: `send`, `send_to`, `recv`, `recv_from`

Each OS call either returns a transferred byte count or fails with `-1`,
in which case the code queries `io::Error::last_os_error()`.  The model
abstracts the OS outcome as `OsIo`; the functions below are the
error-translation logic of the corresponding methods.

`SOCKET_SHUTDOWN` is `libc::ESHUTDOWN` (108 on Linux); on Windows the
code compares against `WSAESHUTDOWN` (10058). -/

/-- Outcome of an OS `send`/`recv`-family call: a byte count, or a failure
with the queried last-error code. -/
inductive OsIo where
  | ok (n : Nat)
  | fail (code : Int)
deriving DecidableEq, Repr

/-- `libc::ESHUTDOWN` on Linux. -/
def ESHUTDOWN : Int := 108

/-- `WSAESHUTDOWN` on Windows. -/
def WSAESHUTDOWN : Int := 10058

/-- `Socket::send` (unix.rs): a `-1` return with last error `ESHUTDOWN`
becomes `Ok(0)`; any other failure is returned as the error. -/
def Unix.send (os : OsIo) : CallResult Nat :=
  match os with
  | .ok n => .ok n
  | .fail code => if code = ESHUTDOWN then .ok 0 else .err (.os code)

/-- `Socket::send_to` (unix.rs): same translation as `send`. -/
def Unix.send_to (os : OsIo) : CallResult Nat :=
  match os with
  | .ok n => .ok n
  | .fail code => if code = ESHUTDOWN then .ok 0 else .err (.os code)

/-- `Socket::recv` (unix.rs): every failure is returned as the error. -/
def Unix.recv (os : OsIo) : CallResult Nat :=
  match os with
  | .ok n => .ok n
  | .fail code => .err (.os code)

/-- Outcome of an OS `recvfrom` call: the return value (byte count or
failure code) together with the contents and reported length of the
native address out-parameter after the call. -/
structure OsAddrIo where
  ret : OsIo
  storage : sockaddr_storage
  len : Nat
deriving DecidableEq, Repr

/-- `Socket::recv_from` (unix.rs): every failure is returned as the
error; on success the peer address is decoded (`?` propagates a decode
error). -/
def Unix.recv_from (le : Bool) (os : OsAddrIo) : CallResult (Nat × SocketAddr) :=
  match os.ret with
  | .fail code => .err (.os code)
  | .ok n =>
      match sockaddr_to_addr le Unix.AF_INET6 os.storage os.len with
      | .ok a => .ok (n, a)
      | .err e => .err e
      | .panic => .panic

/-- `Socket::send` (windows.rs): a `-1` return with last error
`WSAESHUTDOWN` becomes `Ok(0)`; any other failure is returned. -/
def Windows.send (os : OsIo) : CallResult Nat :=
  match os with
  | .ok n => .ok n
  | .fail code => if code = WSAESHUTDOWN then .ok 0 else .err (.os code)

/-- `Socket::send_to` (windows.rs): same translation as `send`. -/
def Windows.send_to (os : OsIo) : CallResult Nat :=
  match os with
  | .ok n => .ok n
  | .fail code => if code = WSAESHUTDOWN then .ok 0 else .err (.os code)

/-- `Socket::recv` (windows.rs): a `-1` return with last error
`WSAESHUTDOWN` also becomes `Ok(0)`; any other failure is returned. -/
def Windows.recv (os : OsIo) : CallResult Nat :=
  match os with
  | .ok n => .ok n
  | .fail code => if code = WSAESHUTDOWN then .ok 0 else .err (.os code)

/-- `Socket::recv_from` (windows.rs): a failure with last error
`WSAESHUTDOWN` decodes the peer address out-parameter and returns
`Ok((0, addr))`; any other failure is returned; on success the peer
address is decoded. -/
def Windows.recv_from (le : Bool) (os : OsAddrIo) :
    CallResult (Nat × SocketAddr) :=
  match os.ret with
  | .fail code =>
      if code = WSAESHUTDOWN then
        match sockaddr_to_addr le Windows.AF_INET6 os.storage os.len with
        | .ok a => .ok (0, a)
        | .err e => .err e
        | .panic => .panic
      else .err (.os code)
  | .ok n =>
      match sockaddr_to_addr le Windows.AF_INET6 os.storage os.len with
      | .ok a => .ok (n, a)
      | .err e => .err e
      | .panic => .panic

/-- C3 counterexample: the claim says the shutdown-to-zero translation is
performed only for send-family operations, never for `recv`; but on the
Windows variant a `recv` failure with last error `WSAESHUTDOWN` is
returned as `Ok(0)`, not as an error. -/
theorem C3_counterexample_windows_recv :
    Windows.recv (.fail WSAESHUTDOWN) = .ok 0 ∧
    (Windows.recv (.fail WSAESHUTDOWN)).isError = false := by
  exact ⟨rfl, rfl⟩

/-- C3 (amended): `send` and `send_to` translate the peer-shutdown error
code (`ESHUTDOWN` on POSIX, `WSAESHUTDOWN` on Windows) into `Ok(0)` and
return every other OS failure as an error, on both platform variants; the
POSIX `recv`/`recv_from` return every OS failure as an error; but the
Windows `recv` and `recv_from` also translate `WSAESHUTDOWN` into a
zero-byte success (`recv_from` additionally decoding the peer address). -/
theorem C3_shutdown_translation (code : Int)
    (hu : code ≠ ESHUTDOWN) (hw : code ≠ WSAESHUTDOWN)
    (le : Bool) (os : OsAddrIo) (a : SocketAddr)
    (hdec : sockaddr_to_addr le Windows.AF_INET6 os.storage os.len = .ok a) :
    (Unix.send (.fail ESHUTDOWN) = .ok 0 ∧
     Unix.send_to (.fail ESHUTDOWN) = .ok 0 ∧
     Unix.send (.fail code) = .err (.os code) ∧
     Unix.send_to (.fail code) = .err (.os code)) ∧
    (Unix.recv (.fail ESHUTDOWN) = .err (.os ESHUTDOWN) ∧
     Unix.recv (.fail code) = .err (.os code) ∧
     Unix.recv_from le { os with ret := .fail ESHUTDOWN } =
       .err (.os ESHUTDOWN) ∧
     Unix.recv_from le { os with ret := .fail code } = .err (.os code)) ∧
    (Windows.send (.fail WSAESHUTDOWN) = .ok 0 ∧
     Windows.send_to (.fail WSAESHUTDOWN) = .ok 0 ∧
     Windows.send (.fail code) = .err (.os code) ∧
     Windows.send_to (.fail code) = .err (.os code)) ∧
    (Windows.recv (.fail WSAESHUTDOWN) = .ok 0 ∧
     Windows.recv (.fail code) = .err (.os code) ∧
     Windows.recv_from le { os with ret := .fail WSAESHUTDOWN } = .ok (0, a) ∧
     Windows.recv_from le { os with ret := .fail code } = .err (.os code)) := by
  refine ⟨⟨rfl, rfl, ?_, ?_⟩, ⟨rfl, rfl, rfl, rfl⟩, ⟨rfl, rfl, ?_, ?_⟩,
    ⟨rfl, ?_, ?_, ?_⟩⟩
  · simp [Unix.send, hu]
  · simp [Unix.send_to, hu]
  · simp [Windows.send, hw]
  · simp [Windows.send_to, hw]
  · simp [Windows.recv, hw]
  · simp [Windows.recv_from, hdec]
  · simp [Windows.recv_from, hw]

/-- C3 witness: the amended theorem applied to the concrete code 5 and a
concrete decodable peer buffer. -/
theorem C3_shutdown_translation_witness :
    Unix.send (.fail 5) = .err (.os 5) ∧
    Windows.recv_from true
      { ret := .fail WSAESHUTDOWN,
        storage := (get_raw_addr true Windows.AF_INET6 (.v4 ⟨127,0,0,1⟩ 80)).1,
        len := 16 } = .ok (0, .v4 ⟨127,0,0,1⟩ 80) := by
  have h := C3_shutdown_translation 5 (by decide) (by decide) true
    { ret := .fail WSAESHUTDOWN,
      storage := (get_raw_addr true Windows.AF_INET6 (.v4 ⟨127,0,0,1⟩ 80)).1,
      len := 16 } (.v4 ⟨127,0,0,1⟩ 80) (by decide)
  exact ⟨h.1.2.2.1, h.2.2.2.2.2.1⟩

/-! ### C4 and C5: decode failure modes -/

/-- C4 counterexample: the claim says a too-short reported length yields
a decode failure as an error result; but the code's `assert!` makes it a
panic, not an error result.  Concretely: an IPv4-tagged buffer with
reported length 0. -/
theorem C4_counterexample_short_length_panics :
    sockaddr_to_addr true Unix.AF_INET6
      { ss_family := 2, port_b0 := 0, port_b1 := 0, v4_addr := ⟨0,0,0,0⟩,
        v6_addr := List.replicate 16 0, flowinfo := 0, scope_id := 0 } 0
      = .panic ∧
    (sockaddr_to_addr true Unix.AF_INET6
      { ss_family := 2, port_b0 := 0, port_b1 := 0, v4_addr := ⟨0,0,0,0⟩,
        v6_addr := List.replicate 16 0, flowinfo := 0, scope_id := 0 }
      0).isError = false := by
  exact ⟨rfl, rfl⟩

/-- C4 (amended): for any native buffer whose family tag is IPv4
(resp. IPv6) but whose reported length is smaller than the native IPv4
(resp. IPv6) structure size, decoding halts with a failed assertion
(panic) — not a silently truncated or defaulted address, and not an
error result. -/
theorem C4_short_length_asserts (le : Bool) (af6 : Nat)
    (storage : sockaddr_storage) (len : Nat) :
    (storage.ss_family = AF_INET → len < sizeof_sockaddr_in →
      sockaddr_to_addr le af6 storage len = .panic) ∧
    (storage.ss_family = af6 → af6 ≠ AF_INET → len < sizeof_sockaddr_in6 →
      sockaddr_to_addr le af6 storage len = .panic) := by
  constructor
  · intro hfam hlen
    simp [sockaddr_to_addr, hfam, AF_INET, Nat.not_le.mpr hlen]
  · intro hfam h6 hlen
    simp [sockaddr_to_addr, hfam, h6, Nat.not_le.mpr hlen]

/-- C4 witness: a concrete IPv6-tagged buffer with reported length 27
(one byte short) panics. -/
theorem C4_short_length_asserts_witness :
    sockaddr_to_addr true Unix.AF_INET6
      { ss_family := 10, port_b0 := 0, port_b1 := 0, v4_addr := ⟨0,0,0,0⟩,
        v6_addr := List.replicate 16 0, flowinfo := 0, scope_id := 0 } 27
      = .panic :=
  (C4_short_length_asserts true Unix.AF_INET6
    { ss_family := 10, port_b0 := 0, port_b1 := 0, v4_addr := ⟨0,0,0,0⟩,
      v6_addr := List.replicate 16 0, flowinfo := 0, scope_id := 0 } 27).2
    rfl (by decide) (by decide)

/-! For C5 the operations that decode a peer or local address are also
modelled: `name` (`getsockname`) and `accept`, which propagate a decode
error with `?` after a successful OS call. -/

/-- Outcome of an OS `getsockname` call: failure with a code, or success
with the filled buffer and reported length. -/
inductive OsNameCall where
  | ok (storage : sockaddr_storage) (len : Nat)
  | fail (code : Int)
deriving DecidableEq, Repr

/-- `Socket::name`: OS failure is returned as the error; otherwise the
buffer is decoded. -/
def Socket.name (le : Bool) (af6 : Nat) (os : OsNameCall) :
    CallResult SocketAddr :=
  match os with
  | .fail code => .err (.os code)
  | .ok storage len => sockaddr_to_addr le af6 storage len

/-- Outcome of an OS `accept` call: failure with a code, or success with
the child handle and the filled peer buffer. -/
inductive OsAcceptCall where
  | ok (sock : Int) (storage : sockaddr_storage) (len : Nat)
  | fail (code : Int)
deriving DecidableEq, Repr

/-- `Socket::accept`: OS failure is returned as the error; otherwise the
peer buffer is decoded (`?`) and the child handle wrapped. -/
def Socket.accept (le : Bool) (af6 : Nat) (os : OsAcceptCall) :
    CallResult (Int × SocketAddr) :=
  match os with
  | .fail code => .err (.os code)
  | .ok sock storage len =>
      match sockaddr_to_addr le af6 storage len with
      | .ok a => .ok (sock, a)
      | .err e => .err e
      | .panic => .panic

/-- C5 (claim as stated): a native buffer whose family tag is neither
IPv4 nor IPv6 decodes to the distinct `InvalidInput` error — never an OS
error and never a defaulted address — and the same error surfaces from
every operation that decodes an address after a successful OS call:
`name`, `recv_from` (both variants) and `accept`. -/
theorem C5_invalid_family (le : Bool) (af6 : Nat)
    (storage : sockaddr_storage) (len : Nat) (n : Nat) (sock : Int)
    (h4 : storage.ss_family ≠ AF_INET) (h6 : storage.ss_family ≠ af6)
    (h6u : storage.ss_family ≠ Unix.AF_INET6)
    (h6w : storage.ss_family ≠ Windows.AF_INET6) :
    sockaddr_to_addr le af6 storage len = .err .invalidInput ∧
    Socket.name le af6 (.ok storage len) = .err .invalidInput ∧
    Unix.recv_from le { ret := .ok n, storage := storage, len := len } =
      .err .invalidInput ∧
    Windows.recv_from le { ret := .ok n, storage := storage, len := len } =
      .err .invalidInput ∧
    Socket.accept le af6 (.ok sock storage len) = .err .invalidInput ∧
    (∀ code : Int, (IoError.invalidInput : IoError) ≠ .os code) := by
  have hdec : ∀ a6, storage.ss_family ≠ a6 →
      sockaddr_to_addr le a6 storage len = .err .invalidInput := by
    intro a6 ha
    simp [sockaddr_to_addr, h4, ha]
  refine ⟨hdec af6 h6, ?_, ?_, ?_, ?_, fun code => by simp⟩
  · simp [Socket.name, hdec af6 h6]
  · simp [Unix.recv_from, hdec Unix.AF_INET6 h6u]
  · simp [Windows.recv_from, hdec Windows.AF_INET6 h6w]
  · simp [Socket.accept, hdec af6 h6]

/-- C5 witness: family tag 99 (e.g. an `AF_UNIX`-style or garbage tag)
yields the `InvalidInput` error from the decoder and from `name`. -/
theorem C5_invalid_family_witness :
    sockaddr_to_addr true Unix.AF_INET6
      { ss_family := 99, port_b0 := 0, port_b1 := 0, v4_addr := ⟨0,0,0,0⟩,
        v6_addr := List.replicate 16 0, flowinfo := 0, scope_id := 0 } 28
      = .err .invalidInput ∧
    Socket.name true Unix.AF_INET6
      (.ok { ss_family := 99, port_b0 := 0, port_b1 := 0, v4_addr := ⟨0,0,0,0⟩,
             v6_addr := List.replicate 16 0, flowinfo := 0, scope_id := 0 } 28)
      = .err .invalidInput := by
  have h := C5_invalid_family true Unix.AF_INET6
    { ss_family := 99, port_b0 := 0, port_b1 := 0, v4_addr := ⟨0,0,0,0⟩,
      v6_addr := List.replicate 16 0, flowinfo := 0, scope_id := 0 } 28 0 0
    (by decide) (by decide) (by decide) (by decide)
  exact ⟨h.1, h.2.1⟩

/-! ### Readiness multiplexer

POSIX variant: `sockets_to_fd_set` folds over the collection computing
`max_fd = cmp::max(max_fd, socket.inner)` (starting from 0) and inserting
each handle with `FD_SET`; `select` passes the built set iff
`max_fd > 0`, else a null pointer.  Handles are `c_int`, modelled `Int`.

Windows variant: `sockets_to_fd_set` asserts
`sockets.len() < FD_SETSIZE`, then copies the handles into
`fd_array[0..]` and sets `fd_count` to the number copied; `select`
passes the built set iff `sockets.len() > 0`, else null. -/

/-- The POSIX `fd_set` construction: the running maximum of the handles
(seeded with 0) and the inserted handles. -/
def Unix.sockets_to_fd_set (sockets : List Int) : Int × List Int :=
  (sockets.foldl max 0, sockets)

/-- Whether the POSIX `select` wrapper passes a null pointer for a
collection: it passes the built set only when `max_fd > 0`. -/
def Unix.select_null (sockets : List Int) : Bool :=
  if (Unix.sockets_to_fd_set sockets).1 > 0 then false else true

/-- Whether the Windows `select` wrapper passes a null pointer for a
collection: it passes the built set only when the collection's length is
positive. -/
def Windows.select_null (sockets : List Nat) : Bool :=
  if sockets.length > 0 then false else true

/-- `FD_SETSIZE` from the Windows API bindings. -/
def FD_SETSIZE : Nat := 64

/-- Model of the Windows `fd_set`: the final `fd_count` and the written
prefix of `fd_array`. -/
structure fd_set where
  fd_count : Nat
  fd_array : List Nat
deriving DecidableEq, Repr

/-- One iteration of the copy loop in the Windows `sockets_to_fd_set`:
write the handle at index `fd_count` and increment `fd_count`. -/
def fd_set.push (s : fd_set) (handle : Nat) : fd_set :=
  { fd_count := s.fd_count + 1, fd_array := s.fd_array ++ [handle] }

/-- The Windows `sockets_to_fd_set`:
`assert!(sockets.len() < FD_SETSIZE)` (a panic when it fails), then the
copy loop starting from the zeroed set. -/
def Windows.sockets_to_fd_set (sockets : List Nat) : CallResult fd_set :=
  if sockets.length < FD_SETSIZE then
    .ok (sockets.foldl fd_set.push ⟨0, []⟩)
  else .panic

theorem fd_set_foldl_push (sockets : List Nat) (s : fd_set) :
    sockets.foldl fd_set.push s =
      ⟨s.fd_count + sockets.length, s.fd_array ++ sockets⟩ := by
  induction sockets generalizing s with
  | nil => simp
  | cons x xs ih =>
      simp only [List.foldl_cons, ih, fd_set.push, List.length_cons]
      exact congrArg₂ fd_set.mk (by omega) (by simp)

/-- C6 counterexample: the claim says null is passed iff the collection
is empty; but the POSIX variant decides by `max_fd > 0`, so the non-empty
collection holding the valid descriptor 0 is passed as null. -/
theorem C6_counterexample_unix_fd_zero :
    Unix.select_null [0] = true ∧ ([0] : List Int) ≠ [] := by
  exact ⟨rfl, by simp⟩

/-- C6 (amended): the Windows variant passes null exactly for an empty
collection; the POSIX variant passes null exactly when the running
maximum of 0 and the handles is not positive, which coincides with
emptiness whenever every handle in the collection is positive (but a
non-empty collection whose handles are all ≤ 0, such as descriptor 0, is
also passed as null). -/
theorem C6_select_null (l : List Int) (lw : List Nat) :
    (Windows.select_null lw = true ↔ lw = []) ∧
    (Unix.select_null l = true ↔ l.foldl max 0 ≤ 0) ∧
    ((∀ fd ∈ l, 0 < fd) → (Unix.select_null l = true ↔ l = [])) := by
  have hmono : ∀ (xs : List Int) (a : Int), a ≤ xs.foldl max a := by
    intro xs
    induction xs with
    | nil => intro a; simp
    | cons x xs ih =>
        intro a
        calc a ≤ max a x := le_max_left a x
        _ ≤ xs.foldl max (max a x) := ih (max a x)
  refine ⟨?_, ?_, ?_⟩
  · cases lw <;> simp [Windows.select_null]
  · by_cases h : l.foldl max 0 > 0
    all_goals simp [Unix.select_null, Unix.sockets_to_fd_set, h]
    all_goals omega
  · intro hpos
    constructor
    · intro hnull
      by_contra hne
      cases l with
      | nil => exact hne rfl
      | cons x xs =>
          have hx : 0 < x := hpos x (by simp)
          have hmax : x ≤ (x :: xs).foldl max 0 := by
            rw [List.foldl_cons]
            exact le_trans (le_max_right 0 x) (hmono xs (max 0 x))
          have hgt : (Unix.sockets_to_fd_set (x :: xs)).1 > 0 := by
            simpa [Unix.sockets_to_fd_set] using lt_of_lt_of_le hx hmax
          simp only [Unix.select_null, if_pos hgt] at hnull
          exact Bool.false_ne_true hnull
    · intro he; subst he; rfl

/-- C6 witness: the amended theorem at a concrete positive-handle
collection (non-empty so not null) and the empty collection. -/
theorem C6_select_null_witness :
    (Unix.select_null [3] = true ↔ ([3] : List Int) = []) ∧
    (Windows.select_null [] = true ↔ ([] : List Nat) = []) :=
  ⟨(C6_select_null [3] []).2.2 (by decide), (C6_select_null [3] []).1⟩

/-- C7: evaluation at the failing input.  A collection of exactly
`FD_SETSIZE` (64) sockets — which the claim and the function's own
documentation allow — trips the `assert!(sockets.len() < FD_SETSIZE)`
and panics, while 63 sockets succeed and a small collection builds the
set with `fd_count` equal to the cardinality and exactly the collection's
handles. -/
theorem C7_capacity_check :
    Windows.sockets_to_fd_set (List.replicate 64 1) = .panic ∧
    Windows.sockets_to_fd_set (List.replicate 63 1) =
      .ok ⟨63, List.replicate 63 1⟩ ∧
    Windows.sockets_to_fd_set [5, 7, 9] = .ok ⟨3, [5, 7, 9]⟩ := by
  refine ⟨by simp [Windows.sockets_to_fd_set, FD_SETSIZE], ?_, ?_⟩
  · rw [Windows.sockets_to_fd_set, if_pos (by simp [FD_SETSIZE]),
      fd_set_foldl_push]
    simp
  · rw [Windows.sockets_to_fd_set, if_pos (by simp [FD_SETSIZE]),
      fd_set_foldl_push]
    simp

/-! ### Timeout conversion: `ms_to_timeval`

POSIX variant: `tv_sec = timeout_ms as time_t / 1000`,
`tv_usec = (timeout_ms as suseconds_t % 1000) * 1000`, where `time_t`
and `suseconds_t` are 64-bit signed.  Windows variant: the same formulas
but through `timeout_ms as c_long`, where `c_long` is 32-bit signed — so
the `u64` timeout is truncated to its low 32 bits first.  Rust's `as`
cast keeps the low bits and reinterprets them as signed; Rust signed `/`
and `%` truncate toward zero (`Int.tdiv` / `Int.tmod`). -/

/-- Rust integer cast of an unsigned value to a `w`-bit signed integer:
keep the low `w` bits, reinterpret as two's complement. -/
def toSigned (w : Nat) (n : Nat) : Int :=
  if n % 2 ^ w < 2 ^ (w - 1) then (n % 2 ^ w : Int)
  else (n % 2 ^ w : Int) - 2 ^ w

/-- The native time interval. -/
structure timeval where
  tv_sec : Int
  tv_usec : Int
deriving DecidableEq, Repr

/-- `ms_to_timeval` (unix.rs): through a 64-bit signed cast. -/
def Unix.ms_to_timeval (timeout_ms : Nat) : timeval :=
  { tv_sec := (toSigned 64 timeout_ms).tdiv 1000,
    tv_usec := ((toSigned 64 timeout_ms).tmod 1000) * 1000 }

/-- `ms_to_timeval` (windows.rs): through a 32-bit signed (`c_long`)
cast. -/
def Windows.ms_to_timeval (timeout_ms : Nat) : timeval :=
  { tv_sec := (toSigned 32 timeout_ms).tdiv 1000,
    tv_usec := ((toSigned 32 timeout_ms).tmod 1000) * 1000 }

/-- The timeout argument passed by `select`: the converted interval for
`Some(timeout_ms)`, a null pointer (`None`) otherwise. -/
def select_timeout_arg (conv : Nat → timeval) : Option Nat → Option timeval
  | some timeout_ms => some (conv timeout_ms)
  | none => none

/-- C8 counterexample: the claim's formulas fail for large timeouts on
the Windows variant, whose cast to the 32-bit `c_long` truncates: the
timeout 2^32 ms converts to a zero interval instead of seconds
4294967 / microseconds 296000. -/
theorem C8_counterexample_windows_truncation :
    Windows.ms_to_timeval 4294967296 = ⟨0, 0⟩ ∧
    (4294967296 : Nat) / 1000 = 4294967 ∧ (0 : Int) ≠ 4294967 := by
  refine ⟨?_, by norm_num, by norm_num⟩
  simp [Windows.ms_to_timeval, toSigned]

/-- C8 (amended): for timeouts below 2^31 on the Windows variant (2^63
on the POSIX variant) the interval has seconds `T / 1000` and
microseconds `(T % 1000) * 1000`, hence
`sec * 1000000 + usec = T * 1000` with `usec < 1000000`; a larger
timeout is first truncated by the cast to the platform's signed long.
When no timeout is supplied, both variants pass a null interval. -/
theorem C8_timeout_conversion (timeout_ms : Nat) :
    (timeout_ms < 2 ^ 31 →
      Windows.ms_to_timeval timeout_ms =
        ⟨(timeout_ms / 1000 : Nat), ((timeout_ms % 1000) * 1000 : Nat)⟩ ∧
      (Windows.ms_to_timeval timeout_ms).tv_sec * 1000000 +
        (Windows.ms_to_timeval timeout_ms).tv_usec = timeout_ms * 1000 ∧
      (Windows.ms_to_timeval timeout_ms).tv_usec < 1000000) ∧
    (timeout_ms < 2 ^ 63 →
      Unix.ms_to_timeval timeout_ms =
        ⟨(timeout_ms / 1000 : Nat), ((timeout_ms % 1000) * 1000 : Nat)⟩ ∧
      (Unix.ms_to_timeval timeout_ms).tv_sec * 1000000 +
        (Unix.ms_to_timeval timeout_ms).tv_usec = timeout_ms * 1000 ∧
      (Unix.ms_to_timeval timeout_ms).tv_usec < 1000000) ∧
    select_timeout_arg Windows.ms_to_timeval none = none ∧
    select_timeout_arg Unix.ms_to_timeval none = none ∧
    select_timeout_arg Unix.ms_to_timeval (some timeout_ms) =
      some (Unix.ms_to_timeval timeout_ms) := by
  have key : ∀ w : Nat, 0 < w → timeout_ms < 2 ^ (w - 1) →
      (toSigned w timeout_ms).tdiv 1000 = ((timeout_ms / 1000 : Nat) : Int) ∧
      ((toSigned w timeout_ms).tmod 1000) * 1000 =
        ((timeout_ms % 1000) * 1000 : Nat) := by
    intro w hw hms
    have hlt : timeout_ms < 2 ^ w := by
      calc timeout_ms < 2 ^ (w - 1) := hms
      _ ≤ 2 ^ w := Nat.pow_le_pow_right (by norm_num) (Nat.sub_le w 1)
    have hcast : toSigned w timeout_ms = (timeout_ms : Int) := by
      rw [toSigned, if_pos (by rwa [Nat.mod_eq_of_lt hlt])]
      exact Int.emod_eq_of_lt (by positivity) (by exact_mod_cast hlt)
    rw [hcast]
    constructor
    · rfl
    · push_cast
      rfl
  refine ⟨?_, ?_, rfl, rfl, rfl⟩
  · intro hms
    obtain ⟨h1, h2⟩ := key 32 (by norm_num) (by simpa using hms)
    refine ⟨?_, ?_, ?_⟩
    · simp only [Windows.ms_to_timeval, h1, h2]
    · simp only [Windows.ms_to_timeval, h1, h2]
      push_cast
      omega
    · simp only [Windows.ms_to_timeval, h2]
      have := Nat.mod_lt timeout_ms (show 0 < 1000 by norm_num)
      push_cast
      omega
  · intro hms
    obtain ⟨h1, h2⟩ := key 64 (by norm_num) (by simpa using hms)
    refine ⟨?_, ?_, ?_⟩
    · simp only [Unix.ms_to_timeval, h1, h2]
    · simp only [Unix.ms_to_timeval, h1, h2]
      push_cast
      omega
    · simp only [Unix.ms_to_timeval, h2]
      have := Nat.mod_lt timeout_ms (show 0 < 1000 by norm_num)
      push_cast
      omega

/-- C8 witness: a 100 ms timeout converts to 0 s / 100000 us on both
variants. -/
theorem C8_timeout_conversion_witness :
    Windows.ms_to_timeval 100 = ⟨0, 100000⟩ ∧
    Unix.ms_to_timeval 100 = ⟨0, 100000⟩ := by
  have h := C8_timeout_conversion 100
  exact ⟨(h.1 (by norm_num)).1, (h.2.1 (by norm_num)).1⟩

/-! ### Destruction: `impl Drop for Socket`

Source (both platforms):
`let _ = self.shutdown(ShutdownType::Both); let _ = self.close();` —
two OS calls in sequence, both results bound to `_` (discarded).  The
model records the trace of OS calls made, with the outcome of each call
supplied by the environment, and returns the unit value `drop` yields. -/

/-- Direction argument of `shutdown`. -/
inductive ShutdownType where
  | receive
  | send
  | both
deriving DecidableEq, Repr

/-- An OS call made during destruction. -/
inductive DropEvent where
  | shutdown (direction : ShutdownType)
  | close
deriving DecidableEq, Repr

/-- `self.shutdown(direction)`: performs the OS call (one trace event)
and yields the environment-determined result. -/
def Socket.shutdown_call (direction : ShutdownType)
    (result : Except IoError Unit) : List DropEvent × Except IoError Unit :=
  ([.shutdown direction], result)

/-- `self.close()`: performs the OS call (one trace event) and yields
the environment-determined result. -/
def Socket.close_call (result : Except IoError Unit) :
    List DropEvent × Except IoError Unit :=
  ([.close], result)

/-- `impl Drop for Socket`: shutdown of both directions, then close,
each result discarded with `let _ = ...`; returns unit (no error is
observable). -/
def Socket.drop_impl (shutdown_result close_result : Except IoError Unit) :
    List DropEvent × Unit :=
  let s := Socket.shutdown_call .both shutdown_result
  let c := Socket.close_call close_result
  (s.1 ++ c.1, ())

/-- C9: whatever the two OS calls return — in particular when `shutdown`
fails — destruction performs `shutdown(both)` followed by `close` (so
`close` is never skipped), and its result is the unit value: no
destruction-time error is observable. -/
theorem C9_drop_shutdown_then_close
    (shutdown_result close_result : Except IoError Unit) :
    (Socket.drop_impl shutdown_result close_result).1 =
      [.shutdown .both, .close] ∧
    DropEvent.close ∈ (Socket.drop_impl shutdown_result close_result).1 ∧
    (Socket.drop_impl shutdown_result close_result).2 = () := by
  refine ⟨rfl, ?_, rfl⟩
  simp [Socket.drop_impl, Socket.shutdown_call, Socket.close_call]

/-! ### Buffer-length clamping for the I/O calls (C10)

Windows variant (`send`, `send_to`, `recv`, `recv_from`):
`let len = cmp::min(buf.len(), i32::max_value() as usize) as i32;` —
the byte count passed to the OS call.  POSIX variant: `let len =
buf.len();` passed unclamped (the parameter is `size_t`). -/

/-- The byte count the Windows variant passes to the OS I/O call. -/
def Windows.io_len (buf_len : Nat) : Nat :=
  min buf_len 2147483647

/-- The byte count the POSIX variant passes to the OS I/O call. -/
def Unix.io_len (buf_len : Nat) : Nat := buf_len

/-- C10: the Windows variant clamps the buffer length passed to the OS
to at most `i32::MAX` = 2^31 - 1 (so the cast to the 32-bit parameter
never overflows and at most 2^31 - 1 bytes are requested in one call),
passes the full length whenever it fits, and clamps exactly to
2^31 - 1 otherwise; the POSIX variant passes the full length
unclamped. -/
theorem C10_windows_len_clamp (buf_len : Nat) :
    Windows.io_len buf_len ≤ 2 ^ 31 - 1 ∧
    (buf_len ≤ 2 ^ 31 - 1 → Windows.io_len buf_len = buf_len) ∧
    (2 ^ 31 - 1 < buf_len → Windows.io_len buf_len = 2 ^ 31 - 1) ∧
    Unix.io_len buf_len = buf_len := by
  refine ⟨?_, ?_, ?_, rfl⟩
  · simp only [Windows.io_len]
    omega
  · intro h
    simp only [Windows.io_len]
    omega
  · intro h
    simp only [Windows.io_len]
    omega

/-- C10 witness: a 3 GB buffer is clamped to `i32::MAX` bytes; a 42-byte
buffer is passed whole. -/
theorem C10_windows_len_clamp_witness :
    Windows.io_len 3000000000 = 2 ^ 31 - 1 ∧ Windows.io_len 42 = 42 :=
  ⟨(C10_windows_len_clamp 3000000000).2.2.1 (by norm_num),
   (C10_windows_len_clamp 42).2.1 (by norm_num)⟩

end LazySocket
